import Mathlib

/-!
Shallow embedding of the Cloudflare Worker URL shortener (`src/index.js`).

The worker is a pure request → response function once its external effects are
made explicit.  The external collaborators become parameters:

* the Supabase store (`insertShortUrl` / `getShortUrl` / `deleteShortUrl`) is
  an oracle `StoreModel`: `insertResult i` is the store's reply to the i-th
  insert attempt of the request, `lookupResult c` the parsed JSON array
  returned for a select on code `c` (`.error m` models a thrown transport
  exception with message `m`), and `deleteResult c` the reply to a delete
  (whose payload the worker never inspects);
* `Math.random`-driven code generation is an oracle `gen : Nat → String`
  giving the k-th `generateShortCode()` call's output (call 0 is the initial
  candidate, call k the k-th regeneration); `generateShortCode` itself is
  embedded over a `rand` oracle for `Math.floor(Math.random() * chars.length)`;
* the platform's `atob` base64 decoder is an opaque parameter
  `atob : String → String`.

Each handler returns the `HttpResponse` it produces together with the list of
short codes it handed to the store's insert endpoint, in order — the insert
trace that the retry-counting properties are about.  JSON response bodies are
kept at the structure level (the object passed to `JSON.stringify`), plain
text and HTML bodies as the literal strings from the source.
-/

namespace Shortener

/-- Environment bindings the worker reads (`env.*` in `src/index.js`).
The Supabase URL and key only feed the opaque transport and are not needed. -/
structure Env where
  BASIC_AUTH_USER : String
  BASIC_AUTH_PASS : String
  API_SECRET : String
  deriving DecidableEq, Repr

/-- Whether `pat` starts `s`, over code points; structural recursion so that
concrete instances evaluate inside proofs. -/
def charsStartWith : List Char → List Char → Bool
  | [], _ => true
  | _ :: _, [] => false
  | p :: ps, c :: cs => p == c && charsStartWith ps cs

/-- Whether `pat` occurs somewhere in the second list. -/
def charsContain (pat : List Char) : List Char → Bool
  | [] => charsStartWith pat []
  | c :: cs => charsStartWith pat (c :: cs) || charsContain pat cs

/-- JS `String.prototype.includes`: substring containment. -/
def jsIncludes (s pat : String) : Bool := charsContain pat.data s.data

/-- JS `String.prototype.startsWith`. -/
def jsStartsWith (s pre : String) : Bool := charsStartWith pre.data s.data

/-- JS one-argument `String.prototype.substring`: the tail from index `i`. -/
def jsSubstring (s : String) (i : Nat) : String := String.mk (s.data.drop i)

/-- JS `String.prototype.split` with a one-character separator, over code
points: separators delimit (possibly empty) fields. -/
def splitCharsOn (sep : Char) : List Char → List (List Char)
  | [] => [[]]
  | c :: cs =>
    if c == sep then [] :: splitCharsOn sep cs
    else
      match splitCharsOn sep cs with
      | [] => [[c]]
      | p :: ps => (c :: p) :: ps

/-- JS `s.split(sep)` for a single-character `sep`. -/
def jsSplit (s : String) (sep : Char) : List String :=
  (splitCharsOn sep s.data).map String.mk

/-- JS truthiness of a nullable string: `null`/absent and `""` are falsy. -/
def optTruthy : Option String → Bool
  | none => false
  | some s => !(s == "")

/-- JS `a || b` for a nullable string `a`: `b` when `a` is falsy. -/
def jsOr (a : Option String) (b : String) : String :=
  if optTruthy a then a.getD "" else b

/-- The alphabet of `generateShortCode` (`src/index.js` line 8). -/
def shortCodeChars : String :=
  "abcdefghijklmnopqrstuvwxyzABCDEFGHIJKLMNOPQRSTUVWXYZ0123456789"

/-- JS `String.prototype.charAt`: the one-character string at index `i`,
`""` out of range. -/
def charAt (s : String) (i : Nat) : String :=
  match s.data.get? i with
  | some c => String.singleton c
  | none => ""

/-- `generateShortCode(length = 6)` (`src/index.js` lines 7-14): `length`
draws from the 62-character alphabet.  `rand i` stands for the i-th
`Math.floor(Math.random() * chars.length)`, a natural below 62. -/
def generateShortCode (rand : Nat → Nat) (length : Nat := 6) : String :=
  (List.range length).foldl (fun code i => code ++ charAt shortCodeChars (rand i)) ""

/-- `verifyApiKey` (`src/index.js` lines 31-34): strict equality of the
nullable `X-API-Key` header against the configured secret; an absent header
(JS `null`) never equals a string. -/
def verifyApiKey (apiKey : Option String) (env : Env) : Bool :=
  apiKey == some env.API_SECRET

/-- `verifyBasicAuth` (`src/index.js` lines 17-28).  An absent header (JS
`null`, falsy) and a header not starting with `"Basic "` are rejected up
front (an empty-string header is falsy in JS and also fails `startsWith`, so
the embedding's single guard is faithful).  Otherwise the base64 payload is
decoded with the platform `atob`, split on `":"`, and the first two pieces
are compared: JS destructuring makes `password` `undefined` (never equal to a
configured string) when there is no `":"`. -/
def verifyBasicAuth (atob : String → String) (authHeader : Option String) (env : Env) : Bool :=
  match authHeader with
  | none => false
  | some authHeader =>
    if !(jsStartsWith authHeader "Basic ") then false
    else
      let base64Credentials := jsSubstring authHeader 6
      let credentials := atob base64Credentials
      let parts := jsSplit credentials ':'
      (parts.headD "" == env.BASIC_AUTH_USER) && (parts.get? 1 == some env.BASIC_AUTH_PASS)

/-- A stored row of `short_urls` as Supabase returns it. -/
structure SRecord where
  id : String
  short_code : String
  original_url : String
  created_at : String
  deriving DecidableEq, Repr

/-- A response body at the structure the worker builds it: the object handed
to `JSON.stringify`, or the literal text/HTML string. -/
inductive RespBody where
  /-- a plain-text or HTML body, verbatim -/
  | textBody (s : String)
  /-- `JSON.stringify({ error: msg })` -/
  | jsonError (msg : String)
  /-- `JSON.stringify({ success: true, short_code, short_url, original_url })` -/
  | jsonCreate (short_code short_url original_url : String)
  /-- `JSON.stringify(data)` for a fetched row -/
  | jsonRecord (r : SRecord)
  /-- `JSON.stringify({ success: true, message: 'Short URL deleted' })` -/
  | jsonDeleteOk
  deriving DecidableEq, Repr

structure HttpResponse where
  status : Nat
  body : RespBody
  headers : List (String × String)
  deriving DecidableEq, Repr

/-- `new Response(JSON.stringify(..), { status, headers: { Content-Type: application/json } })`. -/
def jsonResponse (status : Nat) (body : RespBody) : HttpResponse :=
  { status := status, body := body, headers := [("Content-Type", "application/json")] }

/-- `new Response(text, { status })` with no explicit headers. -/
def textResponse (status : Nat) (s : String) : HttpResponse :=
  { status := status, body := .textBody s, headers := [] }

/-- `new Response(html, { status, headers: { Content-Type: text/html } })`. -/
def htmlResponse (status : Nat) (s : String) : HttpResponse :=
  { status := status, body := .textBody s, headers := [("Content-Type", "text/html")] }

/-- `requireBasicAuth()` (`src/index.js` lines 37-44). -/
def requireBasicAuthResponse : HttpResponse :=
  { status := 401
    body := .textBody "Authentication required"
    headers := [("WWW-Authenticate", "Basic realm=\"URL Shortener\"")] }

/-- What the worker observes of one `insertShortUrl` round trip:
`response.ok`, or a non-ok response whose `response.text()` it reads, or a
thrown exception (network failure etc.) caught by the surrounding `try`. -/
inductive InsertResult where
  | ok
  | errorText (text : String)
  | thrown (msg : String)
  deriving DecidableEq, Repr

/-- The ignored payload of a delete round trip (status and body of the fetch
response, which `handleApiShort` never reads). -/
structure DeleteReply where
  status : Nat
  body : String
  deriving DecidableEq, Repr

/-- The store oracle: the request's external effects made explicit. -/
structure StoreModel where
  /-- reply to the i-th insert attempt made while handling this request -/
  insertResult : Nat → InsertResult
  /-- `getShortUrl`: the parsed JSON array for `?short_code=eq.<code>`;
  `.error m` is a thrown transport exception with message `m` -/
  lookupResult : String → Except String (List SRecord)
  /-- `deleteShortUrl`: `.ok` is a completed round trip (reply ignored),
  `.error m` a thrown exception -/
  deleteResult : String → Except String DeleteReply

/-- How the create outcome leaves the retry loop. -/
inductive CreateOutcome where
  /-- `response.ok`: `break`, then the success response is built -/
  | created (shortCode : String)
  /-- truthy custom code and duplicate error: the early `return` -/
  | duplicateCustom (code : String)
  /-- any other error, or a duplicate on the last allowed attempt -/
  | createFailed (errorText : String)
  /-- an exception thrown during the round trip, caught by the handler -/
  | thrownDuring (msg : String)
  /-- the `while` guard failing: unreachable from `retries = 0` (the counter
  only increments under `retries < maxRetries - 1`); in JS `response` would
  be `undefined` and `response.json()` would throw into the `catch` -/
  | loopFellThrough
  deriving DecidableEq, Repr

/-- `const maxRetries = 5` (`src/index.js` lines 154 and 281). -/
def maxRetries : Nat := 5

/-- The duplicate check of `src/index.js` lines 171 and 297: the error text
includes the word duplicate or the word unique. -/
def isDuplicateText (errorText : String) : Bool :=
  jsIncludes errorText "duplicate" || jsIncludes errorText "unique"

/-- The `while (retries < maxRetries)` insert/retry loop shared verbatim by
`handleShortUI` (lines 161-187) and `handleApiShort` (lines 287-319), with
the handler-specific `return`s abstracted into `CreateOutcome`.  `retries`
is the loop counter, `shortCode` the current candidate, `attempted` the
insert trace so far.  The i-th iteration's insert is attempt `retries = i`,
and a regeneration at counter `r` is generator call `r + 1`. -/
def createLoop (store : Nat → InsertResult) (gen : Nat → String) (custom : Option String)
    (retries : Nat) (shortCode : String) (attempted : List String) :
    CreateOutcome × List String :=
  if _h : retries < maxRetries then
    match store retries with
    | .ok => (.created shortCode, attempted ++ [shortCode])
    | .errorText errorText =>
      if optTruthy custom && isDuplicateText errorText then
        (.duplicateCustom (custom.getD ""), attempted ++ [shortCode])
      else if !optTruthy custom && isDuplicateText errorText && retries < maxRetries - 1 then
        createLoop store gen custom (retries + 1) (gen (retries + 1)) (attempted ++ [shortCode])
      else
        (.createFailed errorText, attempted ++ [shortCode])
    | .thrown msg => (.thrownDuring msg, attempted ++ [shortCode])
  else
    (.loopFellThrough, attempted)
termination_by maxRetries - retries
decreasing_by simp_wf; omega

/-- `let shortCode = custom_code || generateShortCode()` followed by the
retry loop, from `retries = 0` with an empty trace. -/
def createShort (store : Nat → InsertResult) (gen : Nat → String)
    (custom : Option String) : CreateOutcome × List String :=
  createLoop store gen custom 0 (jsOr custom (gen 0)) []

/-- The message of the TypeError JS would raise reading `response.json()`
after the while loop fell through without `break` or `return` — a branch
unreachable from `retries = 0`, kept only for a total embedding. -/
def undefinedResponseMsg : String :=
  "Cannot read properties of undefined (reading \x27json\x27)"

/-- The JSON body `\x7b url, custom_code \x7d` of a POST to `/api-short`;
absent fields are `none`. -/
structure CreateRequestBody where
  url : Option String
  custom_code : Option String
  deriving DecidableEq, Repr

/-- An inbound request, as far as the worker inspects it.  `jsonBody` is the
result of `request.json()` (`.error m`: it threw with message `m`);
`formUrl` / `formCustomCode` are `formData.get` of `url` / `custom_code`
(`none` = JS `null`). -/
structure WorkerRequest where
  method : String
  path : String
  origin : String
  /-- the `X-API-Key` header, `none` when absent -/
  apiKey : Option String
  /-- the `Authorization` header, `none` when absent -/
  authHeader : Option String
  /-- the `code` query parameter -/
  codeParam : Option String
  jsonBody : Except String CreateRequestBody
  formUrl : Option String
  formCustomCode : Option String

/-- The welcome page of `handleIndex` (`src/index.js` lines 116-129). -/
def indexHtml : String :=
  "
<!DOCTYPE html>
<html>
<head>
  <meta charset=\"UTF-8\">
  <meta name=\"viewport\" content=\"width=device-width, initial-scale=1.0\">
  <title>URL Shortener</title>
</head>
<body>
  <h1>Welcome To your stay.</h1>
  <p>Please message the host if you lost the link.</p>
</body>
</html>
  "

/-- The create form served on `GET /short` (`src/index.js` lines 220-247). -/
def shortFormHtml : String :=
  "
<!DOCTYPE html>
<html>
<head>
  <meta charset=\"UTF-8\">
  <meta name=\"viewport\" content=\"width=device-width, initial-scale=1.0\">
  <title>Create Short URL</title>
</head>
<body>
  <h1>URL Shortener</h1>
  <form method=\"POST\">
    <div>
      <label for=\"url\">Original URL:</label><br>
      <input type=\"url\" id=\"url\" name=\"url\" required size=\"50\" placeholder=\"https://example.com\">
    </div>
    <br>
    <div>
      <label for=\"custom_code\">Custom Short Code (optional):</label><br>
      <input type=\"text\" id=\"custom_code\" name=\"custom_code\" size=\"20\" placeholder=\"Leave empty for random\">
    </div>
    <br>
    <button type=\"submit\">Shorten URL</button>
  </form>
  <br>
  <p><a href=\"/api-docs\">View API Documentation</a></p>
</body>
</html>
  "

/-- The UI success page (`src/index.js` lines 193-208), a template over the
short and original URLs. -/
def successHtml (shortUrl originalUrl : String) : String :=
  "
<!DOCTYPE html>
<html>
<head>
  <meta charset=\"UTF-8\">
  <meta name=\"viewport\" content=\"width=device-width, initial-scale=1.0\">
  <title>URL Shortened</title>
</head>
<body>
  <h1>URL Shortened Successfully!</h1>
  <p><strong>Short URL:</strong> <a href=\"" ++ shortUrl ++ "\">" ++ shortUrl ++ "</a></p>
  <p><strong>Original URL:</strong> " ++ originalUrl ++ "</p>
  <p><a href=\"/short\">Create another</a></p>
</body>
</html>
      "

/-- The 404 page of `handle404` (`src/index.js` lines 405-419). -/
def notFoundHtml : String :=
  "
<!DOCTYPE html>
<html>
<head>
  <meta charset=\"UTF-8\">
  <meta name=\"viewport\" content=\"width=device-width, initial-scale=1.0\">
  <title>404 - Not Found</title>
</head>
<body>
  <h1>404 - Not Found</h1>
  <p>The short URL you\x27re looking for doesn\x27t exist.</p>
  <p><a href=\"/\">Go home</a></p>
</body>
</html>
  "

/-- `handle404()` (`src/index.js` lines 404-425). -/
def notFoundResponse : HttpResponse := htmlResponse 404 notFoundHtml

/-- `handleIndex()` (`src/index.js` lines 115-134): status 200. -/
def handleIndex : HttpResponse := htmlResponse 200 indexHtml

/-- The documentation page of `handleApiDocs` (`src/index.js` lines 429-513),
a template over the request origin.  Braces of the JSON examples are written
with hex escapes. -/
def apiDocsHtml (origin : String) : String :=
  "
<!DOCTYPE html>
<html>
<head>
  <meta charset=\"UTF-8\">
  <meta name=\"viewport\" content=\"width=device-width, initial-scale=1.0\">
  <title>API Documentation</title>
</head>
<body>
  <h1>URL Shortener API Documentation</h1>
  <p><a href=\"/short\">← Back to URL Shortener</a></p>

  <hr>

  <p>Use the API endpoint at <code>/api-short</code> to programmatically manage short URLs.</p>
  <p><strong>Authentication:</strong> All API requests require the <code>X-API-Key</code> header.</p>

  <h2>1. Create Short URL</h2>
  <p><strong>Endpoint:</strong> <code>POST " ++ origin ++ "/api-short</code></p>
  <p><strong>Headers:</strong></p>
  <pre>X-API-Key: your-api-secret
Content-Type: application/json</pre>
  <p><strong>Request Body:</strong></p>
  <pre>\x7b
  \"url\": \"https://example.com/very/long/url\",
  \"custom_code\": \"mylink\"  // optional, omit for random code
\x7d</pre>
  <p><strong>Response (Success):</strong></p>
  <pre>\x7b
  \"success\": true,
  \"short_code\": \"mylink\",
  \"short_url\": \"" ++ origin ++ "/mylink\",
  \"original_url\": \"https://example.com/very/long/url\"
\x7d</pre>
  <p><strong>cURL Example:</strong></p>
  <pre>curl -X POST " ++ origin ++ "/api-short \\
  -H \"X-API-Key: your-api-secret\" \\
  -H \"Content-Type: application/json\" \\
  -d \x27\x7b\"url\": \"https://example.com\", \"custom_code\": \"test\"\x7d\x27</pre>

  <h2>2. Get Short URL Info</h2>
  <p><strong>Endpoint:</strong> <code>GET " ++ origin ++ "/api-short?code=SHORTCODE</code></p>
  <p><strong>Headers:</strong></p>
  <pre>X-API-Key: your-api-secret</pre>
  <p><strong>Response (Success):</strong></p>
  <pre>\x7b
  \"id\": \"uuid-here\",
  \"short_code\": \"mylink\",
  \"original_url\": \"https://example.com/very/long/url\",
  \"created_at\": \"2024-01-01T00:00:00Z\"
\x7d</pre>
  <p><strong>cURL Example:</strong></p>
  <pre>curl " ++ origin ++ "/api-short?code=mylink \\
  -H \"X-API-Key: your-api-secret\"</pre>

  <h2>3. Delete Short URL</h2>
  <p><strong>Endpoint:</strong> <code>DELETE " ++ origin ++ "/api-short?code=SHORTCODE</code></p>
  <p><strong>Headers:</strong></p>
  <pre>X-API-Key: your-api-secret</pre>
  <p><strong>Response (Success):</strong></p>
  <pre>\x7b
  \"success\": true,
  \"message\": \"Short URL deleted\"
\x7d</pre>
  <p><strong>cURL Example:</strong></p>
  <pre>curl -X DELETE " ++ origin ++ "/api-short?code=mylink \\
  -H \"X-API-Key: your-api-secret\"</pre>

  <hr>

  <h2>Error Responses</h2>
  <p>All error responses follow this format:</p>
  <pre>\x7b
  \"error\": \"Error message description\"
\x7d</pre>
  <p><strong>Common HTTP Status Codes:</strong></p>
  <ul>
    <li><code>400</code> - Bad Request (missing required fields, duplicate short code)</li>
    <li><code>401</code> - Unauthorized (invalid or missing API key)</li>
    <li><code>404</code> - Not Found (short URL doesn\x27t exist)</li>
    <li><code>500</code> - Internal Server Error</li>
  </ul>
</body>
</html>
  "

/-- `handleApiDocs(request)` (`src/index.js` lines 427-518): status 200. -/
def handleApiDocs (origin : String) : HttpResponse := htmlResponse 200 (apiDocsHtml origin)

/-- `handleShortUI(request, env)` (`src/index.js` lines 136-252), returning
the response and the insert trace.  Auth is checked first; a `POST` reads the
form, validates `url`, then runs the create loop; any other method renders
the form.  The `try` around the loop maps a thrown exception to a 500. -/
def handleShortUI (env : Env) (store : StoreModel) (gen : Nat → String)
    (atob : String → String) (req : WorkerRequest) : HttpResponse × List String :=
  if !verifyBasicAuth atob req.authHeader env then
    (requireBasicAuthResponse, [])
  else if req.method == "POST" then
    let originalUrl := req.formUrl
    let customCode := req.formCustomCode
    if !optTruthy originalUrl then
      (textResponse 400 "URL is required", [])
    else
      let originalUrl := originalUrl.getD ""
      let result := createShort store.insertResult gen customCode
      let response :=
        match result.1 with
        | .created shortCode =>
          htmlResponse 200 (successHtml (req.origin ++ "/" ++ shortCode) originalUrl)
        | .duplicateCustom c =>
          textResponse 400 ("Error: Short code \"" ++ c ++ "\" already exists. Please choose a different code.")
        | .createFailed errorText =>
          textResponse 400 ("Error creating short URL: " ++ errorText)
        | .thrownDuring msg =>
          textResponse 500 ("Error: " ++ msg)
        | .loopFellThrough =>
          textResponse 500 ("Error: " ++ undefinedResponseMsg)
      (response, result.2)
  else
    (htmlResponse 200 shortFormHtml, [])

/-- `handleApiShort(request, env)` (`src/index.js` lines 254-386), returning
the response and the insert trace.  API-key auth first; then `POST` create,
`GET`-with-code lookup, `DELETE`-with-code delete, and a 400 fallback. -/
def handleApiShort (env : Env) (store : StoreModel) (gen : Nat → String)
    (req : WorkerRequest) : HttpResponse × List String :=
  if !verifyApiKey req.apiKey env then
    (jsonResponse 401 (.jsonError "Invalid API key"), [])
  else
    let code := req.codeParam
    if req.method == "POST" then
      match req.jsonBody with
      | .error msg => (jsonResponse 500 (.jsonError msg), [])
      | .ok body =>
        if !optTruthy body.url then
          (jsonResponse 400 (.jsonError "url is required"), [])
        else
          let originalUrl := body.url.getD ""
          let result := createShort store.insertResult gen body.custom_code
          let response :=
            match result.1 with
            | .created shortCode =>
              jsonResponse 200 (.jsonCreate shortCode (req.origin ++ "/" ++ shortCode) originalUrl)
            | .duplicateCustom c =>
              jsonResponse 400 (.jsonError ("Short code \"" ++ c ++ "\" already exists. Please choose a different code."))
            | .createFailed errorText =>
              jsonResponse 400 (.jsonError ("Failed to create short URL: " ++ errorText))
            | .thrownDuring msg =>
              jsonResponse 500 (.jsonError msg)
            | .loopFellThrough =>
              jsonResponse 500 (.jsonError undefinedResponseMsg)
          (response, result.2)
    else if req.method == "GET" && optTruthy code then
      match store.lookupResult (code.getD "") with
      | .error msg => (jsonResponse 500 (.jsonError msg), [])
      | .ok [] => (jsonResponse 404 (.jsonError "Short URL not found"), [])
      | .ok (record :: _) => (jsonResponse 200 (.jsonRecord record), [])
    else if req.method == "DELETE" && optTruthy code then
      match store.deleteResult (code.getD "") with
      | .error msg => (jsonResponse 500 (.jsonError msg), [])
      | .ok _ => (jsonResponse 200 .jsonDeleteOk, [])
    else
      (jsonResponse 400 (.jsonError "Invalid request"), [])

/-- `handleRedirect(request, env, shortCode)` (`src/index.js` lines 388-402):
a found row becomes `Response.redirect(original_url, 302)`, an empty result
the 404 page, a thrown lookup a 500. -/
def handleRedirect (store : StoreModel) (shortCode : String) : HttpResponse :=
  match store.lookupResult shortCode with
  | .error msg => textResponse 500 ("Error: " ++ msg)
  | .ok [] => notFoundResponse
  | .ok (record :: _) =>
    { status := 302, body := .textBody "", headers := [("Location", record.original_url)] }

/-- The top-level `fetch` dispatch (`src/index.js` lines 521-552): exact
matches for the four named paths, then the path minus its leading slash is a
short code when non-empty, else the 404 page. -/
def workerFetch (env : Env) (store : StoreModel) (gen : Nat → String)
    (atob : String → String) (req : WorkerRequest) : HttpResponse × List String :=
  let path := req.path
  if path == "/" then (handleIndex, [])
  else if path == "/short" then handleShortUI env store gen atob req
  else if path == "/api-short" then handleApiShort env store gen req
  else if path == "/api-docs" then (handleApiDocs req.origin, [])
  else
    let shortCode := jsSubstring path 1
    if !(shortCode == "") then (handleRedirect store shortCode, [])
    else (notFoundResponse, [])

/-- The candidate codes produced by generator calls
`start, start + 1, …, start + len - 1`, in order. -/
def genCodes (gen : Nat → String) : Nat → Nat → List String
  | _, 0 => []
  | start, len + 1 => gen start :: genCodes gen (start + 1) len

lemma genCodes_length (gen : Nat → String) :
    ∀ start len, (genCodes gen start len).length = len := by
  intro start len
  induction len generalizing start with
  | zero => rfl
  | succ n ih => simp [genCodes, ih]

/-- Random-code path, all five attempts rejected as duplicates: the loop
makes exactly the five attempts `gen 0 … gen 4` and ends in `createFailed`
carrying the fifth attempt's error text. -/
lemma createShort_all_dup (store : Nat → InsertResult) (gen : Nat → String)
    (errs : Nat → String)
    (hdup : ∀ i, i < 5 → store i = .errorText (errs i) ∧ isDuplicateText (errs i) = true) :
    createShort store gen none =
      (.createFailed (errs 4), [gen 0, gen 1, gen 2, gen 3, gen 4]) := by
  have h0 := hdup 0 (by omega)
  have h1 := hdup 1 (by omega)
  have h2 := hdup 2 (by omega)
  have h3 := hdup 3 (by omega)
  have h4 := hdup 4 (by omega)
  unfold createShort
  rw [createLoop]
  simp [maxRetries, jsOr, optTruthy, h0.1, h0.2]
  rw [createLoop]
  simp [maxRetries, optTruthy, h1.1, h1.2]
  rw [createLoop]
  simp [maxRetries, optTruthy, h2.1, h2.2]
  rw [createLoop]
  simp [maxRetries, optTruthy, h3.1, h3.2]
  rw [createLoop]
  simp [maxRetries, optTruthy, h4.1, h4.2]

/-- Random-code path, the first `N < 5` attempts rejected as duplicates and
attempt `N` accepted: the loop makes exactly the `N + 1` attempts
`gen 0 … gen N` and ends in `created (gen N)`. -/
lemma createShort_dups_then_ok (store : Nat → InsertResult) (gen : Nat → String)
    (errs : Nat → String) (N : Nat) (hN : N < 5)
    (hdup : ∀ i, i < N → store i = .errorText (errs i) ∧ isDuplicateText (errs i) = true)
    (hok : store N = .ok) :
    createShort store gen none = (.created (gen N), genCodes gen 0 (N + 1)) := by
  unfold createShort
  interval_cases N
  · rw [createLoop]
    simp [maxRetries, jsOr, optTruthy, hok, genCodes]
  · have h0 := hdup 0 (by omega)
    rw [createLoop]
    simp [maxRetries, jsOr, optTruthy, h0.1, h0.2]
    rw [createLoop]
    simp [maxRetries, optTruthy, hok, genCodes]
  · have h0 := hdup 0 (by omega)
    have h1 := hdup 1 (by omega)
    rw [createLoop]
    simp [maxRetries, jsOr, optTruthy, h0.1, h0.2]
    rw [createLoop]
    simp [maxRetries, optTruthy, h1.1, h1.2]
    rw [createLoop]
    simp [maxRetries, optTruthy, hok, genCodes]
  · have h0 := hdup 0 (by omega)
    have h1 := hdup 1 (by omega)
    have h2 := hdup 2 (by omega)
    rw [createLoop]
    simp [maxRetries, jsOr, optTruthy, h0.1, h0.2]
    rw [createLoop]
    simp [maxRetries, optTruthy, h1.1, h1.2]
    rw [createLoop]
    simp [maxRetries, optTruthy, h2.1, h2.2]
    rw [createLoop]
    simp [maxRetries, optTruthy, hok, genCodes]
  · have h0 := hdup 0 (by omega)
    have h1 := hdup 1 (by omega)
    have h2 := hdup 2 (by omega)
    have h3 := hdup 3 (by omega)
    rw [createLoop]
    simp [maxRetries, jsOr, optTruthy, h0.1, h0.2]
    rw [createLoop]
    simp [maxRetries, optTruthy, h1.1, h1.2]
    rw [createLoop]
    simp [maxRetries, optTruthy, h2.1, h2.2]
    rw [createLoop]
    simp [maxRetries, optTruthy, h3.1, h3.2]
    rw [createLoop]
    simp [maxRetries, optTruthy, hok, genCodes]

/-- Custom-code path, first attempt rejected as a duplicate: one insert of
the custom code, outcome `duplicateCustom` naming it. -/
lemma createShort_custom_dup (store : Nat → InsertResult) (gen : Nat → String)
    (c errText : String) (hc : c ≠ "")
    (h0 : store 0 = .errorText errText) (hdup : isDuplicateText errText = true) :
    createShort store gen (some c) = (.duplicateCustom c, [c]) := by
  unfold createShort
  rw [createLoop]
  simp [maxRetries, jsOr, optTruthy, h0, hdup, hc]

/-- The retry loop never inspects the value of a falsy custom code: a
supplied-but-empty `custom_code` behaves exactly like an absent one. -/
lemma createLoop_empty_custom (store : Nat → InsertResult) (gen : Nat → String) :
    ∀ fuel retries shortCode attempted, 5 - retries ≤ fuel →
      createLoop store gen (some "") retries shortCode attempted =
        createLoop store gen none retries shortCode attempted := by
  intro fuel
  induction fuel with
  | zero =>
    intro retries shortCode attempted hf
    have h : ¬ retries < maxRetries := by simp only [maxRetries]; omega
    conv_lhs => rw [createLoop]
    conv_rhs => rw [createLoop]
    simp [h]
  | succ n ih =>
    intro retries shortCode attempted hf
    conv_lhs => rw [createLoop]
    conv_rhs => rw [createLoop]
    by_cases h : retries < maxRetries
    · simp only [h, dite_true]
      cases hs : store retries with
      | ok => rfl
      | errorText t =>
        by_cases hc : (isDuplicateText t && decide (retries < maxRetries - 1)) = true
        · simp only [optTruthy, beq_self_eq_true, Bool.not_true, Bool.false_and,
            Bool.false_eq_true, if_false, Bool.not_false, Bool.true_and, Bool.and_assoc,
            hc, if_true]
          exact ih (retries + 1) (gen (retries + 1)) (attempted ++ [shortCode])
            (by simp only [maxRetries] at h ⊢; omega)
        · simp only [optTruthy, beq_self_eq_true, Bool.not_true, Bool.false_and,
            Bool.false_eq_true, if_false, Bool.not_false, Bool.true_and, Bool.and_assoc,
            hc]
      | thrown m => rfl
    · simp [h]

/-- The empty-custom equivalence at the `createShort` entry point. -/
lemma createShort_empty_custom (store : Nat → InsertResult) (gen : Nat → String) :
    createShort store gen (some "") = createShort store gen none := by
  unfold createShort
  rw [show jsOr (some "") (gen 0) = jsOr none (gen 0) from rfl]
  exact createLoop_empty_custom store gen 5 0 (jsOr none (gen 0)) [] (by omega)

/-- Each in-range `charAt` of the alphabet is one character. -/
lemma charAt_shortCodeChars_length :
    ∀ k, k < 62 → (charAt shortCodeChars k).length = 1 := by decide

/-- `generateShortCode` with six in-range random draws is six characters. -/
lemma generateShortCode_length (rand : Nat → Nat) (h : ∀ i, i < 6 → rand i < 62) :
    (generateShortCode rand 6).length = 6 := by
  have e : generateShortCode rand 6 =
      (((((("" ++ charAt shortCodeChars (rand 0)) ++ charAt shortCodeChars (rand 1)) ++
        charAt shortCodeChars (rand 2)) ++ charAt shortCodeChars (rand 3)) ++
        charAt shortCodeChars (rand 4)) ++ charAt shortCodeChars (rand 5)) := rfl
  rw [e]
  simp only [String.length_append]
  rw [charAt_shortCodeChars_length (rand 0) (h 0 (by omega)),
    charAt_shortCodeChars_length (rand 1) (h 1 (by omega)),
    charAt_shortCodeChars_length (rand 2) (h 2 (by omega)),
    charAt_shortCodeChars_length (rand 3) (h 3 (by omega)),
    charAt_shortCodeChars_length (rand 4) (h 4 (by omega)),
    charAt_shortCodeChars_length (rand 5) (h 5 (by omega))]
  rfl

/-- C1: creating without a custom code when the store rejects every insert
attempt as a uniqueness violation makes exactly 5 insert attempts, each with
a freshly generated candidate (generator calls 0 through 4), and then fails
with HTTP 400 carrying the generic store/creation error text — on both the
API route and the UI route — not a distinct exhaustion error kind. -/
theorem c1_random_exhaustion_five_attempts (env : Env) (store : StoreModel)
    (gen : Nat → String) (atob : String → String) (apiReq uiReq : WorkerRequest)
    (u : String) (errs : Nat → String)
    (hkey : apiReq.apiKey = some env.API_SECRET)
    (hmeth : apiReq.method = "POST")
    (hbody : apiReq.jsonBody = .ok { url := some u, custom_code := none })
    (hu : u ≠ "")
    (hauth : verifyBasicAuth atob uiReq.authHeader env = true)
    (huimeth : uiReq.method = "POST")
    (huiurl : uiReq.formUrl = some u)
    (huicc : uiReq.formCustomCode = none)
    (hdup : ∀ i, i < 5 →
      store.insertResult i = .errorText (errs i) ∧ isDuplicateText (errs i) = true) :
    handleApiShort env store gen apiReq =
      (jsonResponse 400 (.jsonError ("Failed to create short URL: " ++ errs 4)),
        [gen 0, gen 1, gen 2, gen 3, gen 4]) ∧
    handleShortUI env store gen atob uiReq =
      (textResponse 400 ("Error creating short URL: " ++ errs 4),
        [gen 0, gen 1, gen 2, gen 3, gen 4]) := by
  have hcs := createShort_all_dup store.insertResult gen errs hdup
  constructor
  · simp [handleApiShort, verifyApiKey, hkey, hmeth, hbody, optTruthy, hu, hcs]
  · simp [handleShortUI, hauth, huimeth, huiurl, huicc, optTruthy, hu, hcs]

/-- C2: creating without a custom code when the store rejects the first
`N < 5` attempts as uniqueness violations and accepts the next succeeds
(HTTP 200) after exactly `N + 1` insert attempts; the returned `short_code`
is the final regenerated candidate (generator call `N`), returned with the
original URL and a `short_url` prefixed by the request origin. -/
theorem c2_random_success_after_n_dups (env : Env) (store : StoreModel)
    (gen : Nat → String) (req : WorkerRequest) (u : String) (errs : Nat → String)
    (N : Nat) (hN : N < 5)
    (hkey : req.apiKey = some env.API_SECRET)
    (hmeth : req.method = "POST")
    (hbody : req.jsonBody = .ok { url := some u, custom_code := none })
    (hu : u ≠ "")
    (hdup : ∀ i, i < N →
      store.insertResult i = .errorText (errs i) ∧ isDuplicateText (errs i) = true)
    (hok : store.insertResult N = .ok) :
    handleApiShort env store gen req =
      (jsonResponse 200 (.jsonCreate (gen N) (req.origin ++ "/" ++ gen N) u),
        genCodes gen 0 (N + 1)) ∧
    (genCodes gen 0 (N + 1)).length = N + 1 := by
  have hcs := createShort_dups_then_ok store.insertResult gen errs N hN hdup hok
  refine ⟨?_, genCodes_length gen 0 (N + 1)⟩
  simp [handleApiShort, verifyApiKey, hkey, hmeth, hbody, optTruthy, hu, hcs]

/-- C3: creating with a (non-empty) custom code that the store rejects as a
uniqueness violation fails with HTTP 400 and an error message naming the
requested code, after exactly one insert attempt carrying that code — no
retry and no regenerated candidate — on both the API and the UI route. -/
theorem c3_custom_duplicate_no_retry (env : Env) (store : StoreModel)
    (gen : Nat → String) (atob : String → String) (apiReq uiReq : WorkerRequest)
    (u c errText : String) (hc : c ≠ "")
    (hkey : apiReq.apiKey = some env.API_SECRET)
    (hmeth : apiReq.method = "POST")
    (hbody : apiReq.jsonBody = .ok { url := some u, custom_code := some c })
    (hu : u ≠ "")
    (hauth : verifyBasicAuth atob uiReq.authHeader env = true)
    (huimeth : uiReq.method = "POST")
    (huiurl : uiReq.formUrl = some u)
    (huicc : uiReq.formCustomCode = some c)
    (h0 : store.insertResult 0 = .errorText errText)
    (hdup : isDuplicateText errText = true) :
    handleApiShort env store gen apiReq =
      (jsonResponse 400 (.jsonError
        ("Short code \"" ++ c ++ "\" already exists. Please choose a different code.")),
        [c]) ∧
    handleShortUI env store gen atob uiReq =
      (textResponse 400
        ("Error: Short code \"" ++ c ++ "\" already exists. Please choose a different code."),
        [c]) := by
  have hcs := createShort_custom_dup store.insertResult gen c errText hc h0 hdup
  constructor
  · simp [handleApiShort, verifyApiKey, hkey, hmeth, hbody, optTruthy, hu, hcs]
  · simp [handleShortUI, hauth, huimeth, huiurl, huicc, optTruthy, hu, hcs]

/-- C4: a request to `/api-short` with no `X-API-Key` header and one with a
wrong value both get the identical 401 JSON error response — before any
method dispatch or store traffic — so a missing header is indistinguishable
from a mismatching key. -/
theorem c4_api_key_absent_eq_wrong (env : Env) (store store2 : StoreModel)
    (gen gen2 : Nat → String) (req req2 : WorkerRequest) (k : String)
    (habs : req.apiKey = none)
    (hwrong : req2.apiKey = some k) (hk : k ≠ env.API_SECRET) :
    handleApiShort env store gen req = (jsonResponse 401 (.jsonError "Invalid API key"), []) ∧
    handleApiShort env store2 gen2 req2 = (jsonResponse 401 (.jsonError "Invalid API key"), []) ∧
    handleApiShort env store gen req = handleApiShort env store2 gen2 req2 := by
  have e1 : handleApiShort env store gen req =
      (jsonResponse 401 (.jsonError "Invalid API key"), []) := by
    simp [handleApiShort, verifyApiKey, habs]
  have e2 : handleApiShort env store2 gen2 req2 =
      (jsonResponse 401 (.jsonError "Invalid API key"), []) := by
    simp [handleApiShort, verifyApiKey, hwrong, hk]
  exact ⟨e1, e2, e1.trans e2.symm⟩

/-- C5: a request to `/short` with failing or absent UI credentials — no
`Authorization` header, a non-Basic header, a decoded username different from
the configured one, or a decoded password different from the configured one —
gets the terminal 401 response carrying the `WWW-Authenticate` Basic
challenge, and the store receives no insert attempt. -/
theorem c5_ui_auth_challenge (env : Env) (store : StoreModel) (gen : Nat → String)
    (atob : String → String) (req : WorkerRequest)
    (h : req.authHeader = none ∨
      (∃ a, req.authHeader = some a ∧ jsStartsWith a "Basic " = false) ∨
      (∃ a, req.authHeader = some a ∧ jsStartsWith a "Basic " = true ∧
        ((jsSplit (atob (jsSubstring a 6)) ':').headD "" ≠ env.BASIC_AUTH_USER ∨
          (jsSplit (atob (jsSubstring a 6)) ':').get? 1 ≠ some env.BASIC_AUTH_PASS))) :
    handleShortUI env store gen atob req = (requireBasicAuthResponse, []) ∧
    requireBasicAuthResponse.status = 401 ∧
    requireBasicAuthResponse.headers =
      [("WWW-Authenticate", "Basic realm=\"URL Shortener\"")] := by
  have hv : verifyBasicAuth atob req.authHeader env = false := by
    rcases h with h | ⟨a, ha, hb⟩ | ⟨a, ha, hb, hcred⟩
    · simp [verifyBasicAuth, h]
    · simp [verifyBasicAuth, ha, hb]
    · simp only [verifyBasicAuth, ha, hb, Bool.not_true, Bool.false_eq_true, if_false]
      rcases hcred with h1 | h2
      · have hf : ((jsSplit (atob (jsSubstring a 6)) ':').headD ""
            == env.BASIC_AUTH_USER) = false := beq_eq_false_iff_ne.mpr h1
        simp only [hf, Bool.false_and]
      · have hf : ((jsSplit (atob (jsSubstring a 6)) ':').get? 1
            == some env.BASIC_AUTH_PASS) = false := beq_eq_false_iff_ne.mpr h2
        simp only [hf, Bool.and_false]
  exact ⟨by simp [handleShortUI, hv], rfl, rfl⟩

/-- C6: on an authenticated lookup, a store reply with zero matching records
yields the 404 JSON not-found response and a thrown store transport failure
yields the 500 JSON error response carrying its message; the two responses
are distinct, so neither outcome is ever reported as the other. -/
theorem c6_lookup_miss_vs_failure (env : Env) (store : StoreModel)
    (gen : Nat → String) (req : WorkerRequest) (c : String)
    (hkey : req.apiKey = some env.API_SECRET)
    (hmeth : req.method = "GET")
    (hcode : req.codeParam = some c) (hc : c ≠ "") :
    (store.lookupResult c = .ok [] →
      handleApiShort env store gen req =
        (jsonResponse 404 (.jsonError "Short URL not found"), [])) ∧
    (∀ msg, store.lookupResult c = .error msg →
      handleApiShort env store gen req = (jsonResponse 500 (.jsonError msg), [])) ∧
    (∀ msg, jsonResponse 404 (.jsonError "Short URL not found") ≠
      jsonResponse 500 (.jsonError msg)) := by
  refine ⟨?_, ?_, ?_⟩
  · intro hl
    simp [handleApiShort, verifyApiKey, hkey, hmeth, hcode, optTruthy, hc, hl]
  · intro msg hl
    simp [handleApiShort, verifyApiKey, hkey, hmeth, hcode, optTruthy, hc, hl]
  · intro msg heq
    simpa [jsonResponse] using congrArg HttpResponse.status heq

/-- C7: a create request whose URL field is absent or empty fails with
HTTP 400 — plain text on the UI route, JSON on the API route — and the store
receives no insert attempt. -/
theorem c7_missing_url_rejected (env : Env) (store : StoreModel) (gen : Nat → String)
    (atob : String → String) (apiReq uiReq : WorkerRequest)
    (bodyUrl cc : Option String)
    (hkey : apiReq.apiKey = some env.API_SECRET)
    (hmeth : apiReq.method = "POST")
    (hbody : apiReq.jsonBody = .ok { url := bodyUrl, custom_code := cc })
    (hurl : bodyUrl = none ∨ bodyUrl = some "")
    (hauth : verifyBasicAuth atob uiReq.authHeader env = true)
    (huimeth : uiReq.method = "POST")
    (huiurl : uiReq.formUrl = none ∨ uiReq.formUrl = some "") :
    handleApiShort env store gen apiReq =
      (jsonResponse 400 (.jsonError "url is required"), []) ∧
    handleShortUI env store gen atob uiReq =
      (textResponse 400 "URL is required", []) := by
  have h1 : optTruthy bodyUrl = false := by
    rcases hurl with h | h <;> simp [h, optTruthy]
  have h2 : optTruthy uiReq.formUrl = false := by
    rcases huiurl with h | h <;> simp [h, optTruthy]
  constructor
  · simp [handleApiShort, verifyApiKey, hkey, hmeth, hbody, h1]
  · simp [handleShortUI, hauth, huimeth, h2]

/-- C8: a GET whose path is none of the four named routes is dispatched,
with no credential check, to the redirect handler on the path minus its
leading slash: a found mapping gives a 302 whose Location is the stored
original URL, an absent one gives the 404 page (never a 302), and the
response is unchanged under any other environment, generator, decoder and
request fields sharing that path. -/
theorem c8_fallback_redirect (env env2 : Env) (store : StoreModel)
    (gen gen2 : Nat → String) (atob atob2 : String → String)
    (req req2 : WorkerRequest)
    (_hmeth : req.method = "GET")
    (h1 : req.path ≠ "/") (h2 : req.path ≠ "/short")
    (h3 : req.path ≠ "/api-short") (h4 : req.path ≠ "/api-docs")
    (h5 : jsSubstring req.path 1 ≠ "") :
    (∀ r rest, store.lookupResult (jsSubstring req.path 1) = .ok (r :: rest) →
      workerFetch env store gen atob req =
        ({ status := 302, body := .textBody "", headers := [("Location", r.original_url)] },
          [])) ∧
    (store.lookupResult (jsSubstring req.path 1) = .ok [] →
      workerFetch env store gen atob req = (notFoundResponse, []) ∧
        notFoundResponse.status = 404 ∧ notFoundResponse.status ≠ 302) ∧
    (req2.path = req.path →
      workerFetch env2 store gen2 atob2 req2 = workerFetch env store gen atob req) := by
  have hdisp : ∀ (e : Env) (g : Nat → String) (ab : String → String) (r : WorkerRequest),
      r.path = req.path →
      workerFetch e store g ab r = (handleRedirect store (jsSubstring req.path 1), []) := by
    intro e g ab r hp
    simp [workerFetch, hp, h1, h2, h3, h4, h5]
  refine ⟨?_, ?_, ?_⟩
  · intro r rest hl
    rw [hdisp env gen atob req rfl]
    simp [handleRedirect, hl]
  · intro hl
    rw [hdisp env gen atob req rfl]
    refine ⟨?_, rfl, by decide⟩
    simp [handleRedirect, hl]
  · intro hp
    rw [hdisp env2 gen2 atob2 req2 hp, hdisp env gen atob req rfl]

/-- C9: an authenticated DELETE whose store round trip completes without a
thrown exception returns the success JSON body, whatever the store's reply
and whatever else the store holds — so deleting an absent code is
indistinguishable from deleting a present one. -/
theorem c9_delete_idempotent (env : Env) (store store2 : StoreModel)
    (gen gen2 : Nat → String) (req : WorkerRequest) (c : String)
    (rep rep2 : DeleteReply)
    (hkey : req.apiKey = some env.API_SECRET)
    (hmeth : req.method = "DELETE")
    (hcode : req.codeParam = some c) (hc : c ≠ "")
    (hdel : store.deleteResult c = .ok rep)
    (hdel2 : store2.deleteResult c = .ok rep2) :
    handleApiShort env store gen req = (jsonResponse 200 .jsonDeleteOk, []) ∧
    handleApiShort env store2 gen2 req = handleApiShort env store gen req := by
  have e1 : handleApiShort env store gen req = (jsonResponse 200 .jsonDeleteOk, []) := by
    simp [handleApiShort, verifyApiKey, hkey, hmeth, hcode, optTruthy, hc, hdel]
  have e2 : handleApiShort env store2 gen2 req = (jsonResponse 200 .jsonDeleteOk, []) := by
    simp [handleApiShort, verifyApiKey, hkey, hmeth, hcode, optTruthy, hc, hdel2]
  exact ⟨e1, e2.trans e1.symm⟩

/-- C10: a create request whose custom-code field is supplied but empty is
handled exactly like one with no custom code at all, on both routes — the
random-code path with its retry applies — and the generated candidates are
6-character codes when the random draws are in range. -/
theorem c10_empty_custom_like_absent (env : Env) (store : StoreModel)
    (atob : String → String) (req : WorkerRequest) (u : Option String)
    (gen : Nat → String) (rand : Nat → Nat → Nat)
    (hgen : gen = fun k => generateShortCode (rand k) 6)
    (hrand : ∀ k i, i < 6 → rand k i < 62) :
    handleApiShort env store gen
        { req with jsonBody := .ok { url := u, custom_code := some "" } } =
      handleApiShort env store gen
        { req with jsonBody := .ok { url := u, custom_code := none } } ∧
    handleShortUI env store gen atob { req with formCustomCode := some "" } =
      handleShortUI env store gen atob { req with formCustomCode := none } ∧
    ∀ k, (gen k).length = 6 := by
  refine ⟨?_, ?_, ?_⟩
  · simp only [handleApiShort]
    rw [createShort_empty_custom]
  · simp only [handleShortUI]
    rw [createShort_empty_custom]
  · intro k
    subst hgen
    exact generateShortCode_length (rand k) (hrand k)

/-! Concrete fixtures used by the witness theorems below. -/

def envW : Env :=
  { BASIC_AUTH_USER := "admin", BASIC_AUTH_PASS := "hunter2", API_SECRET := "sekret-key" }

/-- A decoder fixture standing in for the platform base64 `atob`. -/
def atobW : String → String := fun _ => "admin:hunter2"

/-- A generator fixture: distinct readable candidates. -/
def genW : Nat → String := fun k => "g" ++ toString k

/-- The store error text fixture, matching Postgres unique-violation text. -/
def dupMsgW : String := "duplicate key value violates unique constraint"

lemma dupMsgW_is_dup : isDuplicateText dupMsgW = true := by decide

def recW : SRecord :=
  { id := "id-1", short_code := "abc", original_url := "https://example.com/long"
    created_at := "2024-01-01T00:00:00Z" }

/-- A store whose inserts succeed, lookups find nothing, deletes complete. -/
def storeOkW : StoreModel :=
  { insertResult := fun _ => .ok
    lookupResult := fun _ => .ok []
    deleteResult := fun _ => .ok { status := 204, body := "" } }

def storeAllDupW : StoreModel :=
  { storeOkW with insertResult := fun _ => .errorText dupMsgW }

def storeTwoDupW : StoreModel :=
  { storeOkW with insertResult := fun i => if i < 2 then .errorText dupMsgW else .ok }

def storeFoundW : StoreModel :=
  { storeOkW with lookupResult := fun _ => .ok [recW] }

def storeLookupErrW : StoreModel :=
  { storeOkW with lookupResult := fun _ => .error "fetch failed" }

def baseReqW : WorkerRequest :=
  { method := "GET", path := "/", origin := "https://sho.rt"
    apiKey := none, authHeader := none, codeParam := none
    jsonBody := .error "Unexpected end of JSON input"
    formUrl := none, formCustomCode := none }

def apiCreateReqW : WorkerRequest :=
  { baseReqW with
    method := "POST", path := "/api-short", apiKey := some "sekret-key"
    jsonBody := .ok { url := some "https://example.com/long", custom_code := none } }

def uiCreateReqW : WorkerRequest :=
  { baseReqW with
    method := "POST", path := "/short"
    authHeader := some "Basic YWRtaW46aHVudGVyMg=="
    formUrl := some "https://example.com/long", formCustomCode := none }

/-- C1 witness: with every insert rejected as a duplicate, both routes make
the five attempts `g0 … g4` and answer 400 with the generic failure text. -/
theorem c1_random_exhaustion_five_attempts_w :
    apiCreateReqW.apiKey = some envW.API_SECRET ∧
    verifyBasicAuth atobW uiCreateReqW.authHeader envW = true ∧
    (∀ i, i < 5 → storeAllDupW.insertResult i = .errorText dupMsgW ∧
      isDuplicateText dupMsgW = true) ∧
    handleApiShort envW storeAllDupW genW apiCreateReqW =
      (jsonResponse 400 (.jsonError ("Failed to create short URL: " ++ dupMsgW)),
        [genW 0, genW 1, genW 2, genW 3, genW 4]) ∧
    handleShortUI envW storeAllDupW genW atobW uiCreateReqW =
      (textResponse 400 ("Error creating short URL: " ++ dupMsgW),
        [genW 0, genW 1, genW 2, genW 3, genW 4]) := by
  have h := c1_random_exhaustion_five_attempts envW storeAllDupW genW atobW
    apiCreateReqW uiCreateReqW "https://example.com/long" (fun _ => dupMsgW)
    rfl rfl rfl (by decide) (by decide) rfl rfl rfl
    (by intro i hi; exact ⟨rfl, dupMsgW_is_dup⟩)
  exact ⟨rfl, by decide, by intro i hi; exact ⟨rfl, dupMsgW_is_dup⟩, h.1, h.2⟩

/-- C2 witness: with the first two inserts rejected as duplicates and the
third accepted, the create succeeds with candidate `g2` after the three
attempts `g0 g1 g2`. -/
theorem c2_random_success_after_n_dups_w :
    (2 : Nat) < 5 ∧
    (∀ i, i < 2 → storeTwoDupW.insertResult i = .errorText dupMsgW ∧
      isDuplicateText dupMsgW = true) ∧
    storeTwoDupW.insertResult 2 = .ok ∧
    handleApiShort envW storeTwoDupW genW apiCreateReqW =
      (jsonResponse 200 (.jsonCreate (genW 2) ("https://sho.rt" ++ "/" ++ genW 2)
        "https://example.com/long"), genCodes genW 0 3) ∧
    (genCodes genW 0 3).length = 3 := by
  have h := c2_random_success_after_n_dups envW storeTwoDupW genW apiCreateReqW
    "https://example.com/long" (fun _ => dupMsgW) 2 (by decide)
    rfl rfl rfl (by decide)
    (by intro i hi; refine ⟨?_, dupMsgW_is_dup⟩; interval_cases i <;> rfl) rfl
  exact ⟨by decide,
    by intro i hi; refine ⟨?_, dupMsgW_is_dup⟩; interval_cases i <;> rfl,
    rfl, h.1, h.2⟩

def apiCustomReqW : WorkerRequest :=
  { apiCreateReqW with
    jsonBody := .ok { url := some "https://example.com/long", custom_code := some "mylink" } }

def uiCustomReqW : WorkerRequest :=
  { uiCreateReqW with formCustomCode := some "mylink" }

/-- C3 witness: a duplicate custom code `mylink` is inserted once, and both
routes answer 400 naming it. -/
theorem c3_custom_duplicate_no_retry_w :
    ("mylink" : String) ≠ "" ∧
    storeAllDupW.insertResult 0 = .errorText dupMsgW ∧
    isDuplicateText dupMsgW = true ∧
    handleApiShort envW storeAllDupW genW apiCustomReqW =
      (jsonResponse 400 (.jsonError
        ("Short code \"" ++ "mylink" ++ "\" already exists. Please choose a different code.")),
        ["mylink"]) ∧
    handleShortUI envW storeAllDupW genW atobW uiCustomReqW =
      (textResponse 400
        ("Error: Short code \"" ++ "mylink" ++ "\" already exists. Please choose a different code."),
        ["mylink"]) := by
  have h := c3_custom_duplicate_no_retry envW storeAllDupW genW atobW
    apiCustomReqW uiCustomReqW "https://example.com/long" "mylink" dupMsgW
    (by decide) rfl rfl rfl (by decide) (by decide) rfl rfl rfl rfl dupMsgW_is_dup
  exact ⟨by decide, rfl, dupMsgW_is_dup, h.1, h.2⟩

def apiNoKeyReqW : WorkerRequest := { baseReqW with path := "/api-short" }

def apiWrongKeyReqW : WorkerRequest :=
  { baseReqW with path := "/api-short", apiKey := some "not-the-secret" }

/-- C4 witness: the absent-header and wrong-key requests both get the one
401 JSON response, and the two responses are identical. -/
theorem c4_api_key_absent_eq_wrong_w :
    apiNoKeyReqW.apiKey = none ∧
    apiWrongKeyReqW.apiKey = some "not-the-secret" ∧
    ("not-the-secret" : String) ≠ envW.API_SECRET ∧
    handleApiShort envW storeOkW genW apiNoKeyReqW =
      (jsonResponse 401 (.jsonError "Invalid API key"), []) ∧
    handleApiShort envW storeOkW genW apiWrongKeyReqW =
      (jsonResponse 401 (.jsonError "Invalid API key"), []) ∧
    handleApiShort envW storeOkW genW apiNoKeyReqW =
      handleApiShort envW storeOkW genW apiWrongKeyReqW := by
  have h := c4_api_key_absent_eq_wrong envW storeOkW storeOkW genW genW
    apiNoKeyReqW apiWrongKeyReqW "not-the-secret" rfl rfl (by decide)
  exact ⟨rfl, rfl, by decide, h.1, h.2.1, h.2.2⟩

def uiNoAuthReqW : WorkerRequest := { baseReqW with method := "POST", path := "/short" }

/-- C5 witness: a `/short` request with no Authorization header gets the
401 challenge response and no insert reaches the store. -/
theorem c5_ui_auth_challenge_w :
    uiNoAuthReqW.authHeader = none ∧
    handleShortUI envW storeOkW genW atobW uiNoAuthReqW = (requireBasicAuthResponse, []) ∧
    requireBasicAuthResponse.status = 401 ∧
    requireBasicAuthResponse.headers =
      [("WWW-Authenticate", "Basic realm=\"URL Shortener\"")] := by
  have h := c5_ui_auth_challenge envW storeOkW genW atobW uiNoAuthReqW (Or.inl rfl)
  exact ⟨rfl, h.1, h.2.1, h.2.2⟩

def apiLookupReqW : WorkerRequest :=
  { baseReqW with
    method := "GET", path := "/api-short"
    apiKey := some "sekret-key", codeParam := some "abc" }

/-- C6 witness: the same authenticated lookup answers 404 under an
empty-result store and 500 under a throwing store. -/
theorem c6_lookup_miss_vs_failure_w :
    apiLookupReqW.apiKey = some envW.API_SECRET ∧
    apiLookupReqW.method = "GET" ∧
    apiLookupReqW.codeParam = some "abc" ∧
    storeOkW.lookupResult "abc" = .ok [] ∧
    storeLookupErrW.lookupResult "abc" = .error "fetch failed" ∧
    handleApiShort envW storeOkW genW apiLookupReqW =
      (jsonResponse 404 (.jsonError "Short URL not found"), []) ∧
    handleApiShort envW storeLookupErrW genW apiLookupReqW =
      (jsonResponse 500 (.jsonError "fetch failed"), []) ∧
    jsonResponse 404 (.jsonError "Short URL not found") ≠
      jsonResponse 500 (.jsonError "fetch failed") := by
  refine ⟨rfl, rfl, rfl, rfl, rfl, ?_, ?_, ?_⟩
  · exact (c6_lookup_miss_vs_failure envW storeOkW genW apiLookupReqW "abc"
      rfl rfl rfl (by decide)).1 rfl
  · exact (c6_lookup_miss_vs_failure envW storeLookupErrW genW apiLookupReqW "abc"
      rfl rfl rfl (by decide)).2.1 "fetch failed" rfl
  · exact (c6_lookup_miss_vs_failure envW storeOkW genW apiLookupReqW "abc"
      rfl rfl rfl (by decide)).2.2 "fetch failed"

def apiEmptyUrlReqW : WorkerRequest :=
  { apiCreateReqW with jsonBody := .ok { url := some "", custom_code := none } }

def uiNoUrlReqW : WorkerRequest := { uiCreateReqW with formUrl := none }

/-- C7 witness: an empty API url and an absent UI url both fail 400 with an
empty insert trace. -/
theorem c7_missing_url_rejected_w :
    apiEmptyUrlReqW.jsonBody = .ok { url := some "", custom_code := none } ∧
    uiNoUrlReqW.formUrl = none ∧
    handleApiShort envW storeOkW genW apiEmptyUrlReqW =
      (jsonResponse 400 (.jsonError "url is required"), []) ∧
    handleShortUI envW storeOkW genW atobW uiNoUrlReqW =
      (textResponse 400 "URL is required", []) := by
  have h := c7_missing_url_rejected envW storeOkW genW atobW
    apiEmptyUrlReqW uiNoUrlReqW (some "") none
    rfl rfl rfl (Or.inr rfl) (by decide) rfl (Or.inl rfl)
  exact ⟨rfl, rfl, h.1, h.2⟩

def redirectReqW : WorkerRequest := { baseReqW with path := "/abc" }

def redirectOtherReqW : WorkerRequest :=
  { baseReqW with
    path := "/abc", apiKey := some "whatever"
    authHeader := some "Basic Zm9vOmJhcg==" }

def envOtherW : Env :=
  { BASIC_AUTH_USER := "other", BASIC_AUTH_PASS := "creds", API_SECRET := "other-secret" }

/-- C8 witness: `/abc` redirects 302 to the stored URL when present, serves
the 404 page when absent, and the answer ignores credentials and
environment. -/
theorem c8_fallback_redirect_w :
    redirectReqW.path = "/abc" ∧
    storeFoundW.lookupResult "abc" = .ok [recW] ∧
    storeOkW.lookupResult "abc" = .ok [] ∧
    workerFetch envW storeFoundW genW atobW redirectReqW =
      ({ status := 302, body := .textBody "", headers := [("Location", recW.original_url)] }, []) ∧
    workerFetch envW storeOkW genW atobW redirectReqW = (notFoundResponse, []) ∧
    workerFetch envOtherW storeFoundW genW atobW redirectOtherReqW =
      workerFetch envW storeFoundW genW atobW redirectReqW := by
  refine ⟨rfl, rfl, rfl, ?_, ?_, ?_⟩
  · exact (c8_fallback_redirect envW envW storeFoundW genW genW atobW atobW
      redirectReqW redirectReqW rfl (by decide) (by decide) (by decide) (by decide)
      (by decide)).1 recW [] rfl
  · exact ((c8_fallback_redirect envW envW storeOkW genW genW atobW atobW
      redirectReqW redirectReqW rfl (by decide) (by decide) (by decide) (by decide)
      (by decide)).2.1 rfl).1
  · exact (c8_fallback_redirect envW envOtherW storeFoundW genW genW atobW atobW
      redirectReqW redirectOtherReqW rfl (by decide) (by decide) (by decide) (by decide)
      (by decide)).2.2 rfl

def apiDeleteReqW : WorkerRequest :=
  { baseReqW with
    method := "DELETE", path := "/api-short"
    apiKey := some "sekret-key", codeParam := some "abc" }

/-- C9 witness: the authenticated delete of `abc` answers the success JSON
under a store that holds it and under one that does not, identically. -/
theorem c9_delete_idempotent_w :
    storeFoundW.deleteResult "abc" = .ok { status := 204, body := "" } ∧
    storeOkW.deleteResult "abc" = .ok { status := 204, body := "" } ∧
    handleApiShort envW storeFoundW genW apiDeleteReqW =
      (jsonResponse 200 .jsonDeleteOk, []) ∧
    handleApiShort envW storeOkW genW apiDeleteReqW =
      handleApiShort envW storeFoundW genW apiDeleteReqW := by
  have h := c9_delete_idempotent envW storeFoundW storeOkW genW genW apiDeleteReqW
    "abc" { status := 204, body := "" } { status := 204, body := "" }
    rfl rfl rfl (by decide) rfl rfl
  exact ⟨rfl, rfl, h.1, h.2⟩

/-- A deterministic in-range randomness fixture and the generator it
induces through `generateShortCode`. -/
def randW : Nat → Nat → Nat := fun k i => (k + i) % 62

def genRandW : Nat → String := fun k => generateShortCode (randW k) 6

def emptyCustomReqW : WorkerRequest :=
  { baseReqW with
    jsonBody := .ok { url := some "https://example.com/long", custom_code := some "" } }

def noCustomReqW : WorkerRequest :=
  { baseReqW with
    jsonBody := .ok { url := some "https://example.com/long", custom_code := none } }

/-- C10 witness: with the empty-string custom code both routes behave
exactly as with no custom code, and the generated candidate is 6 long. -/
theorem c10_empty_custom_like_absent_w :
    (∀ k i, i < 6 → randW k i < 62) ∧
    handleApiShort envW storeOkW genRandW emptyCustomReqW =
      handleApiShort envW storeOkW genRandW noCustomReqW ∧
    handleShortUI envW storeOkW genRandW atobW { baseReqW with formCustomCode := some "" } =
      handleShortUI envW storeOkW genRandW atobW { baseReqW with formCustomCode := none } ∧
    (genRandW 0).length = 6 := by
  have h := c10_empty_custom_like_absent envW storeOkW atobW baseReqW
    (some "https://example.com/long") genRandW randW rfl
    (fun k i _ => Nat.mod_lt _ (by omega))
  exact ⟨fun k i _ => Nat.mod_lt _ (by omega), h.1, h.2.1, h.2.2 0⟩

end Shortener
